import Mathlib

/-!
Verification of `cornwall_collection.py`, a generator of iCalendar files for
Cornwall Council waste collections.  The definitions below are a shallow
embedding of the script's core logic: the day/month date-inference heuristic
(`Source._parse_collection_date`), the UPRN resolution step inside
`Source.fetch`, the per-row assembly loop of `Source.fetch`, the inclusion
filter (`_is_enabled` plus the list comprehension in `main`) and the
iCalendar serializer (`_build_ics`).

Modelling conventions: Python `date` objects become the `Date` structure
below with an `Int` year (the script only ever sees years from the wall
clock, so `datetime`'s 1..9999 year range and `strptime`'s four-digit `%Y`
field are abstracted away); `strptime` failure (`ValueError`) becomes
`Option`; the process environment read by `os.getenv` becomes an explicit
`String → Option String` argument; the wall-clock `date.today()` and the
`DTSTAMP` generation time become explicit arguments.  The `strptime`
grammar follows the regex CPython compiles for `"%d %b %Y"` (format
blanks become `\s+` over Python's unicode whitespace class, `%d` is the
alternation `3[01]|[12]\d|0[1-9]|[1-9]| [1-9]`, `%b` a case-insensitive
three-letter month abbreviation), with two deliberate ASCII
restrictions: the `\d` in `[12]\d` is modelled as an ASCII digit (Python
would also accept a non-ASCII decimal digit there), and case-insensitive
month matching is ASCII case folding (Python's `re.IGNORECASE` also
folds a few exotic codepoints such as U+212A).  Statements about the
date parser are therefore conditioned on the model grammar accepting the
text, where it agrees exactly with `strptime`.
-/

namespace Cornwall

/-- A calendar date as in Python's `datetime.date`: year, month (1-12),
day (1-31), no time component. -/
structure Date where
  year : Int
  month : Nat
  day : Nat
deriving DecidableEq, Repr

/-- Python's `date` comparison `a < b`: lexicographic on (year, month, day). -/
def Date.before (a b : Date) : Bool :=
  decide (a.year < b.year ∨ (a.year = b.year ∧
    (a.month < b.month ∨ (a.month = b.month ∧ a.day < b.day))))

/-- Gregorian leap-year rule, as used by Python's `datetime` validation. -/
def isLeap (y : Int) : Bool :=
  y % 4 == 0 && (y % 100 != 0 || y % 400 == 0)

/-- Number of days in month `m` of year `y` (Python `datetime` validation). -/
def daysInMonth (y : Int) (m : Nat) : Nat :=
  if m = 2 then (if isLeap y then 29 else 28)
  else if m = 4 ∨ m = 6 ∨ m = 9 ∨ m = 11 then 30
  else 31

/-- The abbreviated month names accepted by `strptime`'s `%b` directive
(matched case-insensitively). -/
def MONTH_ABBREVS : List String :=
  ["jan", "feb", "mar", "apr", "may", "jun",
   "jul", "aug", "sep", "oct", "nov", "dec"]

/-- Month number (1-12) for an abbreviated month name, case-insensitive,
as `strptime`'s `%b` directive resolves it. -/
def monthIndex (m : List Char) : Option Nat :=
  (MONTH_ABBREVS.indexOf? (String.mk (m.map Char.toLower))).map (· + 1)

/-- Python's regex `\s` on unicode strings (`Py_UNICODE_ISSPACE`), the
class that whitespace in a `strptime` format string is compiled to
(`\s+`). -/
def isPySpace (c : Char) : Bool :=
  decide ((0x09 ≤ c.toNat ∧ c.toNat ≤ 0x0D) ∨
    (0x1C ≤ c.toNat ∧ c.toNat ≤ 0x1F) ∨
    c.toNat = 0x20 ∨ c.toNat = 0x85 ∨ c.toNat = 0xA0 ∨
    c.toNat = 0x1680 ∨ (0x2000 ≤ c.toNat ∧ c.toNat ≤ 0x200A) ∨
    c.toNat = 0x2028 ∨ c.toNat = 0x2029 ∨
    c.toNat = 0x202F ∨ c.toNat = 0x205F ∨ c.toNat = 0x3000)

/-- `strptime`'s `%d` directive: the regex alternation
`3[01]|[12]\d|0[1-9]|[1-9]| [1-9]`, i.e. a two-digit day 01-31, a single
digit 1-9, or an ASCII space followed by a digit 1-9.  Returns the day
value and the unconsumed rest; the alternatives are mutually exclusive
here because every successful overall match must be followed by
whitespace, which a digit never is. -/
def parseDay : List Char → Option (Nat × List Char)
  | ' ' :: c :: rest =>
    if '1' ≤ c ∧ c ≤ '9' then some (c.toNat - 48, rest) else none
  | c1 :: c2 :: rest =>
    if c1.isDigit ∧ c2.isDigit then
      let d := (c1.toNat - 48) * 10 + (c2.toNat - 48)
      if 1 ≤ d ∧ d ≤ 31 then some (d, rest) else none
    else if '1' ≤ c1 ∧ c1 ≤ '9' then some (c1.toNat - 48, c2 :: rest)
    else none
  | [c] => if '1' ≤ c ∧ c ≤ '9' then some (c.toNat - 48, []) else none
  | [] => none

/-- The whitespace run a format-string blank compiles to (`\s+`): at
least one `\s` character, consumed maximally. -/
def skipSpaces1 (cs : List Char) : Option (List Char) :=
  match cs with
  | c :: rest =>
    if isPySpace c then some (rest.dropWhile isPySpace) else none
  | [] => none

/-- `strptime`'s `%b` directive: one of the twelve three-letter month
abbreviations, matched case-insensitively. -/
def parseMonthAbbrev (cs : List Char) : Option (Nat × List Char) :=
  match cs with
  | c1 :: c2 :: c3 :: rest =>
    match monthIndex [c1, c2, c3] with
    | some m => some (m, rest)
    | none => none
  | _ => none

/-- The day-and-abbreviated-month grammar of the date text handed to
`strptime(f"{date_str} {current_year}", "%d %b %Y")`: a `%d` day, a run
of whitespace, a `%b` month abbreviation, then optional trailing
whitespace (which merges with the blank the script appends before the
year, the whole input being matched to its end).  Returns the (day,
month) numbers; the day-in-month range check happens against a concrete
year in `strptimeDM`, as `datetime` construction does in Python. -/
def parseDayMonth (s : String) : Option (Nat × Nat) :=
  match parseDay s.data with
  | none => none
  | some (d, rest1) =>
    match skipSpaces1 rest1 with
    | none => none
    | some rest2 =>
      match parseMonthAbbrev rest2 with
      | none => none
      | some (m, rest3) =>
        if rest3.all isPySpace then some (d, m) else none

/-- `datetime.strptime(f"{date_str} {y}", "%d %b %Y").date()`: parse the
day/month text and validate the day against month `m` of year `y`;
`none` models the `ValueError` raised on any failure. -/
def strptimeDM (s : String) (y : Int) : Option Date :=
  match parseDayMonth s with
  | none => none
  | some (d, m) =>
    if 1 ≤ d ∧ d ≤ daysInMonth y m then some ⟨y, m, d⟩ else none

/-- `Source._parse_collection_date`: parse `date_str` with `today.year`;
if today is December and the candidate lands in January/February, re-parse
with next year; if today is January and the candidate lands in December
strictly before today, re-parse with last year; otherwise keep the
candidate.  `none` models the `ValueError` that propagates out. -/
def parse_collection_date (today : Date) (date_str : String) : Option Date :=
  match strptimeDM date_str today.year with
  | none => none
  | some parsed =>
    if today.month = 12 ∧ parsed.month ≤ 2 then
      strptimeDM date_str (today.year + 1)
    else if today.month = 1 ∧ parsed.month = 12 ∧ parsed.before today then
      strptimeDM date_str (today.year - 1)
    else
      some parsed

/-- Python's `str.startswith`: `pre` is a character-wise prefix of `s`. -/
def strStartsWith (s pre : String) : Bool :=
  pre.data.isPrefixOf s.data

/-- The static kind → icon map (`ICON_MAP`): note there is no entry for
`"Food"`. -/
def ICON_MAP : List (String × String) :=
  [("Rubbish", "mdi:delete"),
   ("Recycling", "mdi:recycle"),
   ("Garden", "mdi:flower")]

/-- The static kind → display-name map (`NAME_MAP`). -/
def NAME_MAP : List (String × String) :=
  [("Food", "Food Waste Collection"),
   ("Recycling", "Recycling Collection"),
   ("Rubbish", "Rubbish Recycling"),
   ("Garden", "Garden Waste Collection")]

/-- The display-name → environment-variable map (`INCLUDE_VARS`). -/
def INCLUDE_VARS : List (String × String) :=
  [("Food Waste Collection", "INCLUDE_FOOD"),
   ("Recycling Collection", "INCLUDE_RECYCLING"),
   ("Rubbish Recycling", "INCLUDE_RUBBISH"),
   ("Garden Waste Collection", "INCLUDE_GARDEN")]

/-- The environment values `_is_enabled` treats as true. -/
def truthyValues : List String := ["1", "true", "yes", "on"]

/-- Python's `str.strip()`: drop leading and trailing whitespace. -/
def stripChars (cs : List Char) : List Char :=
  ((cs.dropWhile Char.isWhitespace).reverse.dropWhile Char.isWhitespace).reverse

/-- Python's `value.strip().lower()` as used by `_is_enabled`. -/
def stripLower (value : String) : String :=
  String.mk ((stripChars value.data).map Char.toLower)

/-- `_is_enabled(collection_name)`: a collection is included unless its
display name has an `INCLUDE_*` variable whose environment value is
non-empty and, after strip/lower, not one of `{"1","true","yes","on"}`.
The process environment is the explicit argument `env` (`os.getenv`). -/
def is_enabled (env : String → Option String) (collection_name : String) :
    Bool :=
  match List.lookup collection_name INCLUDE_VARS with
  | none => true
  | some var =>
    match env var with
    | none => true
    | some value =>
      if value = "" then true
      else truthyValues.contains (stripLower value)

/-- The dataclass `Collection`: date, display name (`type`), optional icon. -/
structure Collection where
  date : Date
  type : String
  icon : Option String
deriving DecidableEq, Repr

/-- The filtering step of `main`:
`collections = [c for c in collections if _is_enabled(c.type)]`. -/
def filter_collections (env : String → Option String)
    (collections : List Collection) : List Collection :=
  collections.filter (fun c => is_enabled env c.type)

/-- The errors raised by the resolution step of `Source.fetch`:
`SourceArgumentNotFound("postcode", ...)` and
`SourceArgumentNotFoundWithSuggestions("housenumberorname", value,
suggestions)`. -/
inductive ResolveError where
  | postcodeNotFound (postcode : String)
  | houseNotFoundWithSuggestions (house : String) (suggestions : List String)
deriving DecidableEq, Repr

/-- The UPRN-resolution step of `Source.fetch` (lines 200-218), given the
candidate listing scraped for the postcode as (displayLabel, uprn) pairs.
An empty listing raises `SourceArgumentNotFound`; otherwise the first
candidate whose label starts with `housenumberorname or ""` wins; if none
matches, `SourceArgumentNotFoundWithSuggestions` carries every label.
`house = none` models both an absent and an empty house identifier, since
the constructor normalizes an empty string to `None`. -/
def resolve_uprn (postcode : String) (house : Option String)
    (listing : List (String × String)) : Except ResolveError String :=
  if listing.isEmpty then .error (.postcodeNotFound postcode)
  else
    match listing.find? (fun p => strStartsWith p.1 (house.getD "")) with
    | some p => .ok p.2
    | none =>
      .error (.houseNotFoundWithSuggestions (house.getD "")
        (listing.map Prod.fst))

/-- One iteration of the row loop of `Source.fetch` (lines 230-254), given
a scraped row (kind label, date text): look up display name and icon, parse
the date; `none` models the caught `ValueError` (the row is dropped after a
log message). -/
def make_entry (today : Date) (row : String × String) : Option Collection :=
  match parse_collection_date today row.2 with
  | some dt =>
    some ⟨dt, (List.lookup row.1 NAME_MAP).getD row.1,
      List.lookup row.1 ICON_MAP⟩
  | none => none

/-- The whole row loop of `Source.fetch`: rows whose date fails to parse
are skipped, the others produce their `Collection` in order. -/
def assemble_entries (today : Date) (rows : List (String × String)) :
    List Collection :=
  rows.filterMap (make_entry today)

/-- `TITLE` and `URL` configuration constants. -/
def TITLE : String := "Cornwall Council"

/-- The source URL used in event UIDs. -/
def URL : String := "https://cornwall.gov.uk"

/-- Left-pad the decimal representation of `n` with zeros to `w` digits,
as Python's zero-padded fixed-width `strftime` fields do. -/
def padNum (w : Nat) (n : Nat) : String :=
  let s := toString n
  String.mk (List.replicate (w - s.length) '0') ++ s

/-- `f"{d:%Y%m%d}"`: four-digit year, two-digit month, two-digit day. -/
def fmtYYYYMMDD (d : Date) : String :=
  padNum 4 d.year.toNat ++ padNum 2 d.month ++ padNum 2 d.day

/-- `d + timedelta(days=1)`: the next calendar day. -/
def nextDay (d : Date) : Date :=
  if d.day < daysInMonth d.year d.month then ⟨d.year, d.month, d.day + 1⟩
  else if d.month < 12 then ⟨d.year, d.month + 1, 1⟩
  else ⟨d.year + 1, 1, 1⟩

/-- The five header lines of the calendar built by `_build_ics`. -/
def headerLines : List String :=
  ["BEGIN:VCALENDAR",
   "VERSION:2.0",
   "PRODID:-//" ++ TITLE ++ "//Waste Collection//EN",
   "CALSCALE:GREGORIAN",
   "METHOD:PUBLISH"]

/-- Python's `s.replace(" ", "")`: delete every space character. -/
def removeSpaces (s : String) : String :=
  String.mk (s.data.filter (fun c => c ≠ ' '))

/-- The seven lines `_build_ics` extends `lines` with for one collection:
UID from date and space-stripped display name at the source URL, SUMMARY,
DTSTAMP, all-day DTSTART and exclusive DTEND one day later. -/
def eventLines (dtstamp : String) (c : Collection) : List String :=
  ["BEGIN:VEVENT",
   "UID:" ++ fmtYYYYMMDD c.date ++ "-" ++ removeSpaces c.type
     ++ "@" ++ URL,
   "SUMMARY:" ++ c.type,
   "DTSTAMP:" ++ dtstamp,
   "DTSTART;VALUE=DATE:" ++ fmtYYYYMMDD c.date,
   "DTEND;VALUE=DATE:" ++ fmtYYYYMMDD (nextDay c.date),
   "END:VEVENT"]

/-- The line list `_build_ics` accumulates: header lines, then a loop
extending with each collection's event lines, then the final line.  The
generation timestamp `datetime.now(timezone.utc).strftime(...)` is the
explicit argument `dtstamp`. -/
def buildLines (dtstamp : String) (collections : List Collection) :
    List String :=
  (collections.foldl (fun lines c => lines ++ eventLines dtstamp c)
    headerLines) ++ ["END:VCALENDAR"]

/-- `_build_ics`: the accumulated lines joined with CRLF, with a trailing
CRLF. -/
def build_ics (dtstamp : String) (collections : List Collection) : String :=
  "\r\n".intercalate (buildLines dtstamp collections) ++ "\r\n"

/-- A (day, month) pair that denotes a valid calendar day in every year:
the day is within the month's length in all years, so at most 28 when the
month is February. -/
def validEveryYear (d m : Nat) : Prop :=
  1 ≤ d ∧ d ≤ (if m = 2 then 28 else daysInMonth 2001 m)

instance (d m : Nat) : Decidable (validEveryYear d m) := by
  unfold validEveryYear
  exact inferInstance

/-- The spec's `includeFilter` view of the process environment: the
optional boolean entry for a display name — `none` when the name has no
`INCLUDE_*` variable or the variable is unset or empty, otherwise the
truthiness of its value.  Stated from the spec's words, to be compared
with `is_enabled`. -/
def includeFilterEntry (env : String → Option String) (name : String) :
    Option Bool :=
  match List.lookup name INCLUDE_VARS with
  | none => none
  | some var =>
    match env var with
    | none => none
    | some value =>
      if value = "" then none
      else some (truthyValues.contains (stripLower value))

/-- Redact the timestamp payload of a `DTSTAMP:` line, leaving every other
line unchanged; two calendars agree outside their generation timestamps
exactly when their masked line lists are equal. -/
def maskDTSTAMP (line : String) : String :=
  if strStartsWith line "DTSTAMP:" then "DTSTAMP:" else line

/-! ### Resolution (claims C1, C5) -/

lemma strStartsWith_empty (s : String) : strStartsWith s "" = true := by
  simp [strStartsWith, List.isPrefixOf]

/-- Claim C1, counterexample: on the single-candidate listing
`[("1 Fore Street", "12345")]`, an absent (and likewise an empty) house
identifier does not fail with the suggestions error — the empty prefix
matches every label, so the first candidate's UPRN is returned. -/
theorem resolve_empty_house_counterexample :
    resolve_uprn "TR1 1AA" none [("1 Fore Street", "12345")] =
      Except.ok "12345" ∧
    resolve_uprn "TR1 1AA" (some "") [("1 Fore Street", "12345")] =
      Except.ok "12345" := by
  constructor <;> rfl

/-- Claim C1, amended: for every non-empty candidate listing, when the
query's house identifier is absent or empty, the resolution step of
`Source.fetch` selects the listing's first candidate (the empty prefix
matches every label) and returns its UPRN; it does not fail. -/
theorem resolve_empty_house_selects_first (postcode : String)
    (house : Option String) (l0 : String × String)
    (ls : List (String × String)) (h : house = none ∨ house = some "") :
    resolve_uprn postcode house (l0 :: ls) = Except.ok l0.2 := by
  have hpre : house.getD "" = "" := by rcases h with h | h <;> simp [h]
  simp [resolve_uprn, hpre, List.find?_cons, strStartsWith_empty]

/-- Witness for `resolve_empty_house_selects_first` at a concrete listing. -/
theorem resolve_empty_house_selects_first_witness :
    resolve_uprn "TR1 1AA" none
      [("1 Fore Street", "12345"), ("2 Fore Street", "67890")] =
      Except.ok "12345" :=
  resolve_empty_house_selects_first "TR1 1AA" none ("1 Fore Street", "12345")
    [("2 Fore Street", "67890")] (Or.inl rfl)

/-- Claim C5: on a non-empty listing, a house identifier that is a prefix
of no candidate label makes resolution fail with the with-suggestions
error, whose suggestions are exactly the listing's display labels in the
listing's order. -/
theorem resolve_no_match_suggestions (postcode house : String)
    (l0 : String × String) (ls : List (String × String))
    (h : ∀ p ∈ l0 :: ls, strStartsWith p.1 house = false) :
    resolve_uprn postcode (some house) (l0 :: ls) =
      Except.error (.houseNotFoundWithSuggestions house
        ((l0 :: ls).map Prod.fst)) := by
  have hfind : (l0 :: ls).find?
      (fun p => strStartsWith p.1 house) = none := by
    refine List.find?_eq_none.mpr fun p hp => ?_
    simp [h p hp]
  simp [resolve_uprn, hfind]

/-- Witness for `resolve_no_match_suggestions` at a concrete listing. -/
theorem resolve_no_match_suggestions_witness :
    resolve_uprn "TR1 1AA" (some "9")
      [("1 Fore Street", "12345"), ("2 Fore Street", "67890")] =
      Except.error (.houseNotFoundWithSuggestions "9"
        ["1 Fore Street", "2 Fore Street"]) :=
  resolve_no_match_suggestions "TR1 1AA" "9" ("1 Fore Street", "12345")
    [("2 Fore Street", "67890")] (by decide)

/-! ### Date inference (claims C2, C3, C4) -/

lemma strptimeDM_some (s : String) (y : Int) (d m : Nat)
    (hp : parseDayMonth s = some (d, m)) (h1 : 1 ≤ d)
    (h2 : d ≤ daysInMonth y m) :
    strptimeDM s y = some ⟨y, m, d⟩ := by
  simp [strptimeDM, hp, h1, h2]

lemma strptimeDM_none (s : String) (y : Int) (d m : Nat)
    (hp : parseDayMonth s = some (d, m))
    (h : ¬(1 ≤ d ∧ d ≤ daysInMonth y m)) :
    strptimeDM s y = none := by
  simp [strptimeDM, hp, h]

lemma validEveryYear_le (d m : Nat) (h : validEveryYear d m) (y : Int) :
    1 ≤ d ∧ d ≤ daysInMonth y m := by
  obtain ⟨h1, h2⟩ := h
  refine ⟨h1, ?_⟩
  by_cases hm : m = 2
  · subst hm
    simp at h2
    unfold daysInMonth
    cases isLeap y <;> simp <;> omega
  · simp only [if_neg hm] at h2
    simpa [daysInMonth, hm] using h2

/-- Claim C2, counterexample: `"29 Feb"` is a valid day with an
abbreviated month, yet `Source._parse_collection_date` fails on it when
today's year (2023) is not a leap year. -/
theorem infer_29feb_counterexample :
    parseDayMonth "29 Feb" = some (29, 2) ∧
    parse_collection_date ⟨2023, 6, 15⟩ "29 Feb" = none := by
  decide

/-- Claim C2, amended: conditioned on the date text matching the
day-and-abbreviated-month grammar, `Source._parse_collection_date` fails
exactly when the day is out of range for the month in the inferred year —
out of range in today's year, or, for the December-to-January/February
re-parse, out of range in the next year (so `"29 Feb"` fails exactly when
the inferred year is not a leap year); in particular it returns a date
for every grammar-matching text whose day is valid in every year (at
most 28 for February) and every value of today. -/
theorem infer_valid_day_month_total :
    (∀ (s : String) (today : Date) (d m : Nat),
      parseDayMonth s = some (d, m) → validEveryYear d m →
      ∃ dt, parse_collection_date today s = some dt) ∧
    (∀ (s : String) (today : Date) (d m : Nat),
      parseDayMonth s = some (d, m) →
      (parse_collection_date today s = none ↔
        (¬(1 ≤ d ∧ d ≤ daysInMonth today.year m) ∨
          (today.month = 12 ∧ m ≤ 2 ∧
            daysInMonth (today.year + 1) m < d)))) := by
  constructor
  · intro s today d m hp hv
    have h0 := validEveryYear_le d m hv today.year
    have hs : strptimeDM s today.year = some ⟨today.year, m, d⟩ :=
      strptimeDM_some s today.year d m hp h0.1 h0.2
    have h1 := validEveryYear_le d m hv (today.year + 1)
    have h2 := validEveryYear_le d m hv (today.year - 1)
    simp only [parse_collection_date, hs]
    split
    · exact ⟨_, strptimeDM_some s _ d m hp h1.1 h1.2⟩
    · split
      · exact ⟨_, strptimeDM_some s _ d m hp h2.1 h2.2⟩
      · exact ⟨_, rfl⟩
  · intro s today d m hp
    by_cases hv : 1 ≤ d ∧ d ≤ daysInMonth today.year m
    · have hs : strptimeDM s today.year = some ⟨today.year, m, d⟩ :=
        strptimeDM_some s today.year d m hp hv.1 hv.2
      simp only [parse_collection_date, hs]
      by_cases hb : today.month = 12 ∧ m ≤ 2
      · rw [if_pos hb]
        by_cases h2 : d ≤ daysInMonth (today.year + 1) m
        · rw [strptimeDM_some s _ d m hp hv.1 h2]
          refine iff_of_false (by simp) ?_
          rintro (h | ⟨_, _, hlt⟩)
          · exact h hv
          · omega
        · rw [strptimeDM_none s _ d m hp fun h => h2 h.2]
          exact iff_of_true rfl (Or.inr ⟨hb.1, hb.2, by omega⟩)
      · rw [if_neg hb]
        by_cases hc : today.month = 1 ∧ m = 12 ∧
            Date.before ⟨today.year, m, d⟩ today
        · rw [if_pos hc]
          obtain ⟨h1, hm12, _⟩ := hc
          have h31 : daysInMonth (today.year - 1) m =
              daysInMonth today.year m := by
            subst hm12
            simp [daysInMonth]
          have hs2 : strptimeDM s (today.year - 1) =
              some ⟨today.year - 1, m, d⟩ :=
            strptimeDM_some s _ d m hp hv.1 (by rw [h31]; exact hv.2)
          refine iff_of_false (by simp [hs2]) ?_
          rintro (h | ⟨h12, _, _⟩)
          · exact h hv
          · omega
        · rw [if_neg hc]
          refine iff_of_false (by simp) ?_
          rintro (h | ⟨h12, hm2, _⟩)
          · exact h hv
          · exact hb ⟨h12, hm2⟩
    · have hs : strptimeDM s today.year = none :=
        strptimeDM_none s today.year d m hp hv
      simp only [parse_collection_date, hs]
      exact iff_of_true trivial (Or.inl hv)

/-- Witness for `infer_valid_day_month_total`: totality on `"30 Jan"` and
the failure characterization on `"29 Feb"` seen from mid-2023. -/
theorem infer_valid_day_month_total_witness :
    parseDayMonth "30 Jan" = some (30, 1) ∧ validEveryYear 30 1 ∧
    (∃ dt, parse_collection_date ⟨2024, 6, 1⟩ "30 Jan" = some dt) ∧
    (parse_collection_date ⟨2023, 6, 15⟩ "29 Feb" = none ↔
      (¬(1 ≤ 29 ∧ 29 ≤ daysInMonth 2023 2) ∨
        (6 = 12 ∧ 2 ≤ 2 ∧ daysInMonth (2023 + 1) 2 < 29))) :=
  ⟨by decide, by decide,
    infer_valid_day_month_total.1 "30 Jan" ⟨2024, 6, 1⟩ 30 1 (by decide)
      (by decide),
    infer_valid_day_month_total.2 "29 Feb" ⟨2023, 6, 15⟩ 29 2 (by decide)⟩

/-- Claim C3: when today is in December and the candidate parsed with
today's year lands in January or February, the result is the re-parse with
next year; in particular `"02 Jan"` seen on December 31 of year `y` yields
January 2 of year `y + 1`. -/
theorem infer_december_next_year :
    (∀ (s : String) (today pd : Date),
      strptimeDM s today.year = some pd → today.month = 12 →
      pd.month = 1 ∨ pd.month = 2 →
      parse_collection_date today s = strptimeDM s (today.year + 1)) ∧
    (∀ y : Int, parse_collection_date ⟨y, 12, 31⟩ "02 Jan" =
      some ⟨y + 1, 1, 2⟩) := by
  have h02 : parseDayMonth "02 Jan" = some (2, 1) := by decide
  have hs : ∀ y : Int, strptimeDM "02 Jan" y = some ⟨y, 1, 2⟩ := fun y =>
    strptimeDM_some "02 Jan" y 2 1 h02 (by norm_num)
      (by norm_num [daysInMonth])
  constructor
  · intro s today pd hp h12 hm
    have hle : pd.month ≤ 2 := by rcases hm with h | h <;> omega
    simp [parse_collection_date, hp, h12, hle]
  · intro y
    simp [parse_collection_date, hs]

/-- Witness for `infer_december_next_year` at December 31, 2024. -/
theorem infer_december_next_year_witness :
    parse_collection_date ⟨2024, 12, 31⟩ "02 Jan" =
      strptimeDM "02 Jan" (2024 + 1) ∧
    parse_collection_date ⟨2024, 12, 31⟩ "02 Jan" = some ⟨2024 + 1, 1, 2⟩ :=
  ⟨infer_december_next_year.1 "02 Jan" ⟨2024, 12, 31⟩ ⟨2024, 1, 2⟩
      (by decide) rfl (Or.inl rfl),
    infer_december_next_year.2 2024⟩

/-- Claim C4: when today is in January and the candidate parsed with
today's year lands in December, the result is the re-parse with last year
exactly when the candidate is strictly before today; otherwise the
candidate is kept unchanged.  (On this code path the candidate carries
today's year with month 12 while today is in January, so the candidate is
in fact never before today and the year never flips back.) -/
theorem infer_january_previous_year (s : String) (today pd : Date)
    (hp : strptimeDM s today.year = some pd) (h1 : today.month = 1)
    (h12 : pd.month = 12) :
    (pd.before today = true →
      parse_collection_date today s = strptimeDM s (today.year - 1)) ∧
    (pd.before today = false →
      parse_collection_date today s = some pd) := by
  have hne : ¬(today.month = 12 ∧ pd.month ≤ 2) := by
    rintro ⟨h, _⟩
    omega
  constructor <;> intro hb <;>
    simp [parse_collection_date, hp, hne, h1, h12, hb]

/-- Witness for `infer_january_previous_year` on `"31 Dec"` seen on
January 2: the candidate is not before today, so it is kept. -/
theorem infer_january_previous_year_witness :
    (Date.before ⟨2024, 12, 31⟩ ⟨2024, 1, 2⟩ = true →
      parse_collection_date ⟨2024, 1, 2⟩ "31 Dec" =
        strptimeDM "31 Dec" (2024 - 1)) ∧
    (Date.before ⟨2024, 12, 31⟩ ⟨2024, 1, 2⟩ = false →
      parse_collection_date ⟨2024, 1, 2⟩ "31 Dec" =
        some ⟨2024, 12, 31⟩) :=
  infer_january_previous_year "31 Dec" ⟨2024, 1, 2⟩ ⟨2024, 12, 31⟩
    (by decide) rfl rfl

/-! ### Row assembly (claims C7, C10) -/

lemma length_filterMap_of_isSome {α β : Type} (f : α → Option β)
    (l : List α) (h : ∀ a ∈ l, (f a).isSome) :
    (l.filterMap f).length = l.length := by
  induction l with
  | nil => rfl
  | cons a l ih =>
    obtain ⟨b, hb⟩ :=
      Option.isSome_iff_exists.mp (h a (List.mem_cons_self a l))
    rw [List.filterMap_cons_some hb]
    simp [ih fun x hx => h x (List.mem_cons_of_mem a hx)]

/-- Claim C7: when exactly one row's date text fails to parse, the row
loop of `Source.fetch` drops that row, every other row yields its
`Collection` (the two surrounding segments keep their full lengths), and
the rest of the batch is still processed in order. -/
theorem bad_row_dropped_others_kept (today : Date)
    (pre post : List (String × String)) (bad : String × String)
    (hbad : make_entry today bad = none)
    (hgood : ∀ r ∈ pre ++ post, (make_entry today r).isSome) :
    assemble_entries today (pre ++ bad :: post) =
      assemble_entries today pre ++ assemble_entries today post ∧
    (assemble_entries today pre).length = pre.length ∧
    (assemble_entries today post).length = post.length := by
  refine ⟨?_, ?_, ?_⟩
  · unfold assemble_entries
    rw [List.filterMap_append, List.filterMap_cons_none hbad]
  · exact length_filterMap_of_isSome _ pre
      fun r hr => hgood r (List.mem_append_left _ hr)
  · exact length_filterMap_of_isSome _ post
      fun r hr => hgood r (List.mem_append_right _ hr)

/-- Witness for `bad_row_dropped_others_kept`: the malformed date
`"99 Jan"` drops its row, the rows around it survive. -/
theorem bad_row_dropped_others_kept_witness :
    assemble_entries ⟨2024, 6, 1⟩
        ([("Food", "15 Jan")] ++ ("Rubbish", "99 Jan") ::
          [("Garden", "20 Jan")]) =
      assemble_entries ⟨2024, 6, 1⟩ [("Food", "15 Jan")] ++
        assemble_entries ⟨2024, 6, 1⟩ [("Garden", "20 Jan")] ∧
    (assemble_entries ⟨2024, 6, 1⟩ [("Food", "15 Jan")]).length = 1 ∧
    (assemble_entries ⟨2024, 6, 1⟩ [("Garden", "20 Jan")]).length = 1 :=
  bad_row_dropped_others_kept ⟨2024, 6, 1⟩ [("Food", "15 Jan")]
    [("Garden", "20 Jan")] ("Rubbish", "99 Jan") (by decide) (by decide)

/-- Claim C10: a fetched row whose kind label is `"Food"` and whose date
text parses yields a `Collection` whose display name is
`"Food Waste Collection"` but whose icon is `none`, because `ICON_MAP`
has no entry for `"Food"`. -/
theorem food_row_has_no_icon (today : Date) (ds : String) (dt : Date)
    (h : parse_collection_date today ds = some dt) :
    make_entry today ("Food", ds) =
      some ⟨dt, "Food Waste Collection", none⟩ ∧
    List.lookup "Food" ICON_MAP = none := by
  refine ⟨?_, rfl⟩
  simp only [make_entry, h]
  rfl

/-- Witness for `food_row_has_no_icon` on the row `("Food", "15 Jan")`. -/
theorem food_row_has_no_icon_witness :
    make_entry ⟨2024, 6, 1⟩ ("Food", "15 Jan") =
      some ⟨⟨2024, 1, 15⟩, "Food Waste Collection", none⟩ ∧
    List.lookup "Food" ICON_MAP = none :=
  food_row_has_no_icon ⟨2024, 6, 1⟩ "15 Jan" ⟨2024, 1, 15⟩ (by decide)

/-! ### Inclusion filtering (claim C6) -/

lemma is_enabled_iff (env : String → Option String) (n : String) :
    is_enabled env n = true ↔
      includeFilterEntry env n = none ∨
        includeFilterEntry env n = some true := by
  unfold is_enabled includeFilterEntry
  rcases hl : List.lookup n INCLUDE_VARS with _ | var <;> simp only [hl]
  · simp
  · rcases he : env var with _ | value <;> simp only [he]
    · simp
    · by_cases hv : value = "" <;> simp [hv]

lemma is_enabled_none_env (n : String) :
    is_enabled (fun _ => none) n = true := by
  unfold is_enabled
  cases List.lookup n INCLUDE_VARS <;> rfl

lemma is_enabled_single_false (d var n : String)
    (hmem : (d, var) ∈ INCLUDE_VARS) :
    is_enabled (fun v => if v = var then some "false" else none) n =
      (n != d) := by
  fin_cases hmem <;>
  · by_cases h1 : n = "Food Waste Collection"
    · subst h1; decide
    · by_cases h2 : n = "Recycling Collection"
      · subst h2; decide
      · by_cases h3 : n = "Rubbish Recycling"
        · subst h3; decide
        · by_cases h4 : n = "Garden Waste Collection"
          · subst h4; decide
          · have e1 : (n == "Food Waste Collection") = false :=
              beq_eq_false_iff_ne.mpr h1
            have e2 : (n == "Recycling Collection") = false :=
              beq_eq_false_iff_ne.mpr h2
            have e3 : (n == "Rubbish Recycling") = false :=
              beq_eq_false_iff_ne.mpr h3
            have e4 : (n == "Garden Waste Collection") = false :=
              beq_eq_false_iff_ne.mpr h4
            simp [is_enabled, INCLUDE_VARS, List.lookup, e1, e2, e3, e4,
              bne_iff_ne, h1, h2, h3, h4]

/-- Claim C6: the filtering step of `main` retains a `Collection` exactly
when the environment-induced include filter has no entry for its display
name or the entry is true; an environment setting one display name's
`INCLUDE_*` variable to `"false"` removes every `Collection` with that
display name and no others; an empty environment retains everything. -/
theorem include_filter_semantics (env : String → Option String)
    (cs : List Collection) :
    (∀ c : Collection, c ∈ filter_collections env cs ↔
      c ∈ cs ∧ (includeFilterEntry env c.type = none ∨
        includeFilterEntry env c.type = some true)) ∧
    (∀ d var, (d, var) ∈ INCLUDE_VARS →
      filter_collections (fun v => if v = var then some "false" else none)
        cs = cs.filter (fun c => c.type != d)) ∧
    filter_collections (fun _ => none) cs = cs := by
  refine ⟨?_, ?_, ?_⟩
  · intro c
    rw [filter_collections, List.mem_filter, is_enabled_iff]
  · intro d var hmem
    unfold filter_collections
    exact List.filter_congr
      fun c _ => is_enabled_single_false d var c.type hmem
  · unfold filter_collections
    exact List.filter_eq_self.mpr fun c _ => is_enabled_none_env c.type

/-- Witness for `include_filter_semantics`: disabling
`"Food Waste Collection"` filters exactly the collections with that
display name from a concrete two-element list. -/
theorem include_filter_semantics_witness :
    filter_collections
        (fun v => if v = "INCLUDE_FOOD" then some "false" else none)
        [⟨⟨2025, 1, 15⟩, "Food Waste Collection", none⟩,
         ⟨⟨2025, 1, 20⟩, "Rubbish Recycling", some "mdi:delete"⟩] =
      [⟨⟨2025, 1, 15⟩, "Food Waste Collection", none⟩,
       ⟨⟨2025, 1, 20⟩, "Rubbish Recycling", some "mdi:delete"⟩].filter
        (fun c => c.type != "Food Waste Collection") :=
  (include_filter_semantics
      (fun v => if v = "INCLUDE_FOOD" then some "false" else none)
      [⟨⟨2025, 1, 15⟩, "Food Waste Collection", none⟩,
       ⟨⟨2025, 1, 20⟩, "Rubbish Recycling", some "mdi:delete"⟩]).2.1
    "Food Waste Collection" "INCLUDE_FOOD" (by decide)

/-! ### Calendar serialization (claims C8, C9) -/

lemma foldl_append_eq {α β : Type} (f : α → List β) (l : List α)
    (init : List β) :
    l.foldl (fun acc c => acc ++ f c) init = init ++ (l.map f).flatten := by
  induction l generalizing init with
  | nil => simp
  | cons a l ih => simp [ih, List.append_assoc]

lemma buildLines_eq (dtstamp : String) (cs : List Collection) :
    buildLines dtstamp cs =
      headerLines ++ (cs.map (eventLines dtstamp)).flatten ++
        ["END:VCALENDAR"] := by
  unfold buildLines
  rw [foldl_append_eq]

/-- Claim C8: the serializer emits the five envelope header lines, then
exactly one VEVENT block per `Collection` in input order — UID built from
the date and the space-stripped display name at the source URL, SUMMARY
the display name, all-day DTSTART on the collection date and exclusive
DTEND one day later — then the closing line, all joined with CRLF line
endings; the line count is five header lines plus seven per event plus
the closing line. -/
theorem ics_serialization_format (dtstamp : String) (cs : List Collection) :
    build_ics dtstamp cs =
      "\r\n".intercalate
        (["BEGIN:VCALENDAR", "VERSION:2.0",
          "PRODID:-//Cornwall Council//Waste Collection//EN",
          "CALSCALE:GREGORIAN", "METHOD:PUBLISH"] ++
          (cs.map (fun c =>
            ["BEGIN:VEVENT",
             "UID:" ++ fmtYYYYMMDD c.date ++ "-" ++ removeSpaces c.type ++
               "@" ++ "https://cornwall.gov.uk",
             "SUMMARY:" ++ c.type,
             "DTSTAMP:" ++ dtstamp,
             "DTSTART;VALUE=DATE:" ++ fmtYYYYMMDD c.date,
             "DTEND;VALUE=DATE:" ++ fmtYYYYMMDD (nextDay c.date),
             "END:VEVENT"])).flatten ++
          ["END:VCALENDAR"]) ++ "\r\n" ∧
    (buildLines dtstamp cs).length = 6 + 7 * cs.length := by
  constructor
  · unfold build_ics
    rw [buildLines_eq]
    rfl
  · rw [buildLines_eq]
    induction cs with
    | nil => rfl
    | cons c cs ih =>
      simp [eventLines, headerLines] at ih ⊢
      omega

lemma dtstamp_mask (t : String) :
    maskDTSTAMP ("DTSTAMP:" ++ t) = "DTSTAMP:" := by
  unfold maskDTSTAMP
  have h : strStartsWith ("DTSTAMP:" ++ t) "DTSTAMP:" = true := by
    unfold strStartsWith
    rw [String.data_append, List.isPrefixOf_iff_prefix]
    exact List.prefix_append _ _
  rw [h]
  simp

lemma eventLines_mask (t1 t2 : String) (c : Collection) :
    (eventLines t1 c).map maskDTSTAMP =
      (eventLines t2 c).map maskDTSTAMP := by
  simp [eventLines, dtstamp_mask]

/-- Claim C9: the serializer is deterministic modulo the generation
timestamp — for any two generation timestamps, the two line lists agree
after redacting the payload of every `DTSTAMP:` line (so every line other
than the DTSTAMP lines is identical across invocations on the same
collection list). -/
theorem ics_deterministic_modulo_dtstamp (cs : List Collection)
    (t1 t2 : String) :
    (buildLines t1 cs).map maskDTSTAMP =
      (buildLines t2 cs).map maskDTSTAMP := by
  rw [buildLines_eq, buildLines_eq]
  simp only [List.map_append, List.map_flatten, List.map_map]
  congr 2
  apply congrArg
  apply List.map_congr_left
  intro c _
  exact eventLines_mask t1 t2 c

end Cornwall
